import Mathlib

/-!
Shallow embedding of the capture-coordination core of the tray-screenshot
application (`src/tray_app.py`, `src/screenshot_snippet.py`) and proofs of the
specification claims about it.

Conventions:
* Python strings are modelled as `List Char` (ASCII-level semantics for
  `strip`/`upper`/`lower`/`\w`/`\s`, which covers every input the claims use).
* `json.loads` is modelled by a fuel-bounded recursive-descent parser for the
  JSON grammar accepted by Python's strict decoder (objects, arrays, strings
  with escapes, numbers, `true`/`false`/`null` and the Python extras
  `NaN`/`Infinity`/`-Infinity`); numbers keep their lexeme, which is all the
  program ever observes.  A Python `dict` keeps the last binding of a
  duplicated key, so lookup takes the last matching member.
* Machine integers do not overflow in any of the modelled code paths
  (revisions are unbounded Python ints), so revisions are `Nat` and screen
  coordinates are `Int`.
-/

/-- Characters treated as whitespace by Python's `str.strip` (ASCII part). -/
def isPyWs (c : Char) : Bool :=
  c = ' ' || c = '\t' || c = '\n' || c = '\r' || c = '\x0b' || c = '\x0c'

/-- Characters matched by the regex class `\s` (ASCII part). -/
def isRegexWs (c : Char) : Bool :=
  c = ' ' || c = '\t' || c = '\n' || c = '\r' || c = '\x0b' || c = '\x0c'

/-- Characters treated as whitespace by Python's JSON decoder. -/
def isJsonWs (c : Char) : Bool :=
  c = ' ' || c = '\t' || c = '\n' || c = '\r'

/-- Characters matched by the regex class `\w` (ASCII part). -/
def isWordChar (c : Char) : Bool :=
  c.isAlphanum || c = '_'

/-- The `\x7b` character (left curly brace). -/
def lbraceChar : Char := Char.ofNat 123

/-- The `\x7d` character (right curly brace). -/
def rbraceChar : Char := Char.ofNat 125

/-- The backquote character used by Markdown code fences. -/
def backquoteChar : Char := Char.ofNat 96

/-- Python `str.strip()`: drop leading and trailing whitespace. -/
def pyStrip (cs : List Char) : List Char :=
  ((cs.dropWhile isPyWs).reverse.dropWhile isPyWs).reverse

/-- Case-sensitive prefix test on character lists. -/
def listStartsWith : List Char → List Char → Bool
  | [], _ => true
  | _ :: _, [] => false
  | p :: ps, c :: cs => p = c && listStartsWith ps cs

/-- Case-insensitive (ASCII) prefix test on character lists. -/
def listStartsWithCI : List Char → List Char → Bool
  | [], _ => true
  | _ :: _, [] => false
  | p :: ps, c :: cs => p.toLower = c.toLower && listStartsWithCI ps cs

/-- JSON values as produced by `json.loads`; numbers keep their lexeme. -/
inductive Json where
  | null
  | bool (b : Bool)
  | num (lexeme : String)
  | str (s : String)
  | arr (elems : List Json)
  | obj (members : List (String × Json))

/-- Python `dict.get` on a decoded JSON object: the last binding of a key
wins (duplicate keys overwrite); `None` on anything that is not an object. -/
def jsonGet (j : Json) (key : String) : Option Json :=
  match j with
  | Json.obj members => ((members.filter (fun m => m.1 == key)).getLast?).map (fun m => m.2)
  | _ => none

/-- Decode one hex digit. -/
def hexDigitVal (c : Char) : Option Nat :=
  if '0' ≤ c ∧ c ≤ '9' then some (c.toNat - '0'.toNat)
  else if 'a' ≤ c ∧ c ≤ 'f' then some (c.toNat - 'a'.toNat + 10)
  else if 'A' ≤ c ∧ c ≤ 'F' then some (c.toNat - 'A'.toNat + 10)
  else none

/-- Decode the four hex digits of a `\uXXXX` escape. -/
def hex4 (cs : List Char) : Option (Nat × List Char) :=
  match cs with
  | a :: b :: c :: d :: rest =>
    match hexDigitVal a, hexDigitVal b, hexDigitVal c, hexDigitVal d with
    | some x, some y, some z, some w => some (((x * 16 + y) * 16 + z) * 16 + w, rest)
    | _, _, _, _ => none
  | _ => none

/-- Parse the body of a JSON string (the opening quote already consumed),
with Python's strict rules: raw control characters are rejected, the escapes
are `\" \\ \/ \b \f \n \r \t \uXXXX`, and surrogate pairs are combined. -/
def parseJsonStringBody (fuel : Nat) (cs : List Char) (acc : List Char) :
    Option (List Char × List Char) :=
  match fuel with
  | 0 => none
  | fuel + 1 =>
    match cs with
    | [] => none
    | c :: rest =>
      if c = '"' then some (acc.reverse, rest)
      else if c = '\\' then
        match rest with
        | [] => none
        | e :: rest2 =>
          if e = '"' then parseJsonStringBody fuel rest2 ('"' :: acc)
          else if e = '\\' then parseJsonStringBody fuel rest2 ('\\' :: acc)
          else if e = '/' then parseJsonStringBody fuel rest2 ('/' :: acc)
          else if e = 'b' then parseJsonStringBody fuel rest2 ('\x08' :: acc)
          else if e = 'f' then parseJsonStringBody fuel rest2 ('\x0c' :: acc)
          else if e = 'n' then parseJsonStringBody fuel rest2 ('\n' :: acc)
          else if e = 'r' then parseJsonStringBody fuel rest2 ('\r' :: acc)
          else if e = 't' then parseJsonStringBody fuel rest2 ('\t' :: acc)
          else if e = 'u' then
            match hex4 rest2 with
            | none => none
            | some (n, rest3) =>
              if 0xD800 ≤ n ∧ n ≤ 0xDBFF then
                match rest3 with
                | '\\' :: 'u' :: rest4 =>
                  match hex4 rest4 with
                  | some (m, rest5) =>
                    if 0xDC00 ≤ m ∧ m ≤ 0xDFFF then
                      let code := 0x10000 + (n - 0xD800) * 0x400 + (m - 0xDC00)
                      parseJsonStringBody fuel rest5 (Char.ofNat code :: acc)
                    else parseJsonStringBody fuel rest3 (Char.ofNat n :: acc)
                  | none => parseJsonStringBody fuel rest3 (Char.ofNat n :: acc)
                | _ => parseJsonStringBody fuel rest3 (Char.ofNat n :: acc)
              else parseJsonStringBody fuel rest3 (Char.ofNat n :: acc)
          else none
      else if c.toNat < 0x20 then none
      else parseJsonStringBody fuel rest (c :: acc)

/-- Maximal run of decimal digits. -/
def takeDigits (cs : List Char) : List Char × List Char :=
  (cs.takeWhile Char.isDigit, cs.dropWhile Char.isDigit)

/-- Parse a JSON number with the grammar of Python's `NUMBER_RE`
(`-? (0 | [1-9][0-9]*) (\.[0-9]+)? ([eE][+-]?[0-9]+)?`), longest match,
returning its lexeme. -/
def parseJsonNumber (cs : List Char) : Option (List Char × List Char) :=
  let (sign, cs1) :=
    match cs with
    | '-' :: rest => (['-'], rest)
    | _ => (([] : List Char), cs)
  match cs1 with
  | [] => none
  | d :: rest =>
    if ¬ d.isDigit then none
    else
      let (intPart, cs2) :=
        if d = '0' then ([d], rest)
        else takeDigits cs1
      let (fracPart, cs3) :=
        match cs2 with
        | '.' :: rest2 =>
          let (ds, rest3) := takeDigits rest2
          if ds = [] then (([] : List Char), cs2) else ('.' :: ds, rest3)
        | _ => (([] : List Char), cs2)
      let (expPart, cs4) :=
        match cs3 with
        | e :: rest2 =>
          if e = 'e' ∨ e = 'E' then
            match rest2 with
            | s :: rest3 =>
              if s = '+' ∨ s = '-' then
                let (ds, rest4) := takeDigits rest3
                if ds = [] then (([] : List Char), cs3) else (e :: s :: ds, rest4)
              else
                let (ds, rest4) := takeDigits rest2
                if ds = [] then (([] : List Char), cs3) else (e :: ds, rest4)
            | [] => (([] : List Char), cs3)
          else (([] : List Char), cs3)
        | [] => (([] : List Char), cs3)
      some (sign ++ intPart ++ fracPart ++ expPart, cs4)

mutual

/-- Parse one JSON value at the head of the input (no leading whitespace). -/
def parseJsonValue (fuel : Nat) (cs : List Char) : Option (Json × List Char) :=
  match fuel with
  | 0 => none
  | fuel + 1 =>
    match cs with
    | [] => none
    | c :: rest =>
      if c = '"' then
        match parseJsonStringBody (rest.length + 1) rest [] with
        | some (body, rest2) => some (Json.str (String.mk body), rest2)
        | none => none
      else if c = lbraceChar then parseJsonMembers fuel (rest.dropWhile isJsonWs) [] true
      else if c = '[' then parseJsonElems fuel (rest.dropWhile isJsonWs) [] true
      else if listStartsWith "true".data cs then some (Json.bool true, cs.drop 4)
      else if listStartsWith "false".data cs then some (Json.bool false, cs.drop 5)
      else if listStartsWith "null".data cs then some (Json.null, cs.drop 4)
      else if listStartsWith "NaN".data cs then some (Json.num "NaN", cs.drop 3)
      else if listStartsWith "Infinity".data cs then some (Json.num "Infinity", cs.drop 8)
      else if listStartsWith "-Infinity".data cs then some (Json.num "-Infinity", cs.drop 9)
      else
        match parseJsonNumber cs with
        | some (lex, rest2) => some (Json.num (String.mk lex), rest2)
        | none => none

/-- Parse the members of a JSON object after `\x7b` (whitespace skipped);
`first` marks that no member has been consumed yet (so `\x7d` may follow). -/
def parseJsonMembers (fuel : Nat) (cs : List Char) (acc : List (String × Json))
    (first : Bool) : Option (Json × List Char) :=
  match fuel with
  | 0 => none
  | fuel + 1 =>
    match cs with
    | [] => none
    | c :: rest =>
      if first ∧ c = rbraceChar then some (Json.obj acc.reverse, rest)
      else if c = '"' then
        match parseJsonStringBody (rest.length + 1) rest [] with
        | none => none
        | some (key, rest2) =>
          match rest2.dropWhile isJsonWs with
          | ':' :: rest3 =>
            match parseJsonValue fuel (rest3.dropWhile isJsonWs) with
            | none => none
            | some (v, rest4) =>
              match rest4.dropWhile isJsonWs with
              | ',' :: rest5 =>
                parseJsonMembers fuel (rest5.dropWhile isJsonWs)
                  ((String.mk key, v) :: acc) false
              | d :: rest5 =>
                if d = rbraceChar then some (Json.obj ((String.mk key, v) :: acc).reverse, rest5)
                else none
              | [] => none
          | _ => none
      else none

/-- Parse the elements of a JSON array after `[` (whitespace skipped). -/
def parseJsonElems (fuel : Nat) (cs : List Char) (acc : List Json)
    (first : Bool) : Option (Json × List Char) :=
  match fuel with
  | 0 => none
  | fuel + 1 =>
    match cs with
    | [] => none
    | c :: rest =>
      if first ∧ c = ']' then some (Json.arr acc.reverse, rest)
      else
        match parseJsonValue fuel cs with
        | none => none
        | some (v, rest2) =>
          match rest2.dropWhile isJsonWs with
          | ',' :: rest3 => parseJsonElems fuel (rest3.dropWhile isJsonWs) (v :: acc) false
          | ']' :: rest3 => some (Json.arr (v :: acc).reverse, rest3)
          | _ => none

end

/-- Model of Python `json.loads`: parse one value surrounded only by
whitespace; any leftover input is an error (`None` models the decode error). -/
def json_loads (cs : List Char) : Option Json :=
  match parseJsonValue (2 * cs.length + 4) (cs.dropWhile isJsonWs) with
  | some (v, rest) => if rest.dropWhile isJsonWs = [] then some v else none
  | none => none

/-! ### The regexes of `_extract_gemini_json` and `_extract_answer_letter`

Each regex of the source is modelled directly.  All of them are
backtracking-free in practice because consecutive quantified pieces consume
pairwise disjoint character classes, so greedy (maximal-munch) matching is the
unique match; `.*` is resolved to the largest closing position whose suffix
completes the pattern, which is what the greedy engine produces. -/

/-- Three backquotes, the Markdown fence opener/closer. -/
def fenceMarker : List Char := List.replicate 3 backquoteChar

/-- Does `\s*` followed by a closing fence start here?  (`\s*` is greedy and
disjoint from the backquote, so only the maximal whitespace run matters.) -/
def fenceCloseOk (cs : List Char) : Bool :=
  listStartsWith fenceMarker (cs.dropWhile isRegexWs)

/-- Largest index `j` with `w[j] = \x7d` whose suffix completes
`\s*` + three backquotes — the closing brace chosen by the greedy `.*` of
the fence regex. -/
def lastFenceBrace (w : List Char) : Option Nat :=
  ((List.range w.length).filter
    (fun j => w.get? j == some rbraceChar && fenceCloseOk (w.drop (j + 1)))).getLast?

/-- Match `\s*(\{.*\})\s*` + closing fence against `cs` (positioned after the
opening fence and the optional `json` tag), returning capture group 1. -/
def fenceBodyMatch (cs : List Char) : Option (List Char) :=
  let cs1 := cs.dropWhile isRegexWs
  match cs1 with
  | c :: _ =>
    if c = lbraceChar then
      match lastFenceBrace cs1 with
      | some j => some (cs1.take (j + 1))
      | none => none
    else none
  | [] => none

/-- Try the full fence regex with the match anchored at the head of `cs`:
three backquotes, then `(?:json)?` (case-insensitive, greedy, so the tagged
branch is tried first), then the body. -/
def fenceMatchAt (cs : List Char) : Option (List Char) :=
  if listStartsWith fenceMarker cs then
    let afterOpen := cs.drop 3
    match (if listStartsWithCI "json".data afterOpen then
             fenceBodyMatch (afterOpen.drop 4)
           else none) with
    | some g => some g
    | none => fenceBodyMatch afterOpen
  else none

/-- Model of `re.search` for the fence regex: leftmost match start wins. -/
def fenceSearch : List Char → Option (List Char)
  | [] => none
  | c :: rest =>
    match fenceMatchAt (c :: rest) with
    | some g => some g
    | none => fenceSearch rest

/-- Model of `re.search(r"\x7b.*\x7d", compact, re.DOTALL)`: from the first
opening brace to the last closing brace after it (leftmost start, greedy). -/
def braceSpan (cs : List Char) : Option (List Char) :=
  match cs.findIdx? (fun c => c == lbraceChar) with
  | none => none
  | some i =>
    match ((List.range cs.length).filter (fun j => cs.get? j == some rbraceChar)).getLast? with
    | some j => if i < j then some ((cs.take (j + 1)).drop i) else none
    | none => none

/-- Model of `TrayScreenshotApp._extract_gemini_json`.  Mirrors the source:
strip; if the text starts with a fence, replace it by the fenced brace group
(stripped) when the fence regex matches; strict-parse; on a *decode error*
retry on the first-to-last brace span; a successful parse of a non-object
yields `None` without the brace-span retry. -/
def extract_gemini_json_list (response_text : List Char) : Option Json :=
  let compact0 := pyStrip response_text
  let compact :=
    if listStartsWith fenceMarker compact0 then
      match fenceSearch compact0 with
      | some g => pyStrip g
      | none => compact0
    else compact0
  match json_loads compact with
  | some j =>
    match j with
    | Json.obj ms => some (Json.obj ms)
    | _ => none
  | none =>
    match braceSpan compact with
    | none => none
    | some sub =>
      match json_loads sub with
      | some (Json.obj ms) => some (Json.obj ms)
      | _ => none

/-- String-typed wrapper for `_extract_gemini_json`. -/
def extract_gemini_json (response_text : String) : Option Json :=
  extract_gemini_json_list response_text.data

/-- Word boundary `\b` test against the previous character (`none` at the
start of the string); the current character is a word character in every use
below. -/
def boundaryBefore (prev : Option Char) : Bool :=
  match prev with
  | none => true
  | some p => !isWordChar p

/-- Consume one alternative of `(?:ANSWER|CORRECT\s+ANSWER|OPTION|CHOICE)`
anchored at the head of `cs`, in the pattern's order, returning the rest. -/
def labelAfter (cs : List Char) : Option (List Char) :=
  if listStartsWith "ANSWER".data cs then some (cs.drop 6)
  else if listStartsWith "CORRECT".data cs then
    let rest := cs.drop 7
    if rest.takeWhile isRegexWs = [] then none
    else
      let rest2 := rest.dropWhile isRegexWs
      if listStartsWith "ANSWER".data rest2 then some (rest2.drop 6) else none
  else if listStartsWith "OPTION".data cs then some (cs.drop 6)
  else if listStartsWith "CHOICE".data cs then some (cs.drop 6)
  else none

/-- Match `\s*[:\-]?\s*\(?\s*([A-Z])` (the tail of the answer-label regex
after the closing `\b`), returning the captured letter.  The trailing
`\s*\)?` of the pattern always succeeds and captures nothing, so it is
omitted. -/
def letterSuffixMatch (cs : List Char) : Option Char :=
  let r1 := cs.dropWhile isRegexWs
  let r2 :=
    match r1 with
    | c :: t => if c = ':' ∨ c = '-' then t else r1
    | [] => r1
  let r3 := r2.dropWhile isRegexWs
  let r4 :=
    match r3 with
    | c :: t => if c = '(' then t else r3
    | [] => r3
  let r5 := r4.dropWhile isRegexWs
  match r5 with
  | c :: _ => if c.isUpper then some c else none
  | [] => none

/-- Try the whole answer-label regex with the match anchored at the head of
`cs` (`prev` is the character before it, for the leading `\b`). -/
def labelMatchAt (prev : Option Char) (cs : List Char) : Option Char :=
  if boundaryBefore prev then
    match labelAfter cs with
    | none => none
    | some rest =>
      match rest with
      | [] => none
      | c :: _ => if isWordChar c then none else letterSuffixMatch rest
  else none

/-- Model of `re.search` for the answer-label regex
`\b(?:ANSWER|CORRECT\s+ANSWER|OPTION|CHOICE)\b\s*[:\-]?\s*\(?\s*([A-Z])\s*\)?`:
scan start positions left to right. -/
def labelScan : Option Char → List Char → Option Char
  | _, [] => none
  | prev, c :: rest =>
    match labelMatchAt prev (c :: rest) with
    | some letter => some letter
    | none => labelScan (some c) rest

/-- Model of `re.search(r"\b([A-Z])\b", normalized)`: the first uppercase
letter with a word boundary on both sides. -/
def standaloneScan : Option Char → List Char → Option Char
  | _, [] => none
  | prev, c :: rest =>
    if c.isUpper && boundaryBefore prev &&
        (match rest with | [] => true | d :: _ => !isWordChar d) then
      some c
    else standaloneScan (some c) rest

/-- The JSON-derived branch of `_extract_answer_letter`: the `answer` field,
stripped and upper-cased, when it full-matches `[A-Z]`. -/
def json_answer_letter (parsed : Option Json) : Option Char :=
  match parsed with
  | none => none
  | some j =>
    match jsonGet j "answer" with
    | some (Json.str v) =>
      match (pyStrip v.data).map Char.toUpper with
      | [c] => if c.isUpper then some c else none
      | _ => none
    | _ => none

/-- The raw-text fallback of `_extract_answer_letter`: the answer-label regex
first, then the standalone-letter regex. -/
def raw_text_answer_letter (normalized : List Char) : Option Char :=
  match labelScan none normalized with
  | some c => some c
  | none => standaloneScan none normalized

/-- Model of `TrayScreenshotApp._extract_answer_letter`.  Note that in the
source the raw-text fallback is reached whenever the JSON branch did not
return, including when a JSON object *was* parsed. -/
def extract_answer_letter (response_text : String) : Option Char :=
  let compact := pyStrip response_text.data
  match json_answer_letter (extract_gemini_json_list compact) with
  | some c => some c
  | none => raw_text_answer_letter (compact.map Char.toUpper)

/-- A `.get(...)` result that is a string with non-empty strip, returned
stripped — the acceptance test used twice by `_extract_free_response_answer`. -/
def stripped_nonempty (v : Option Json) : Option String :=
  match v with
  | some (Json.str s) => if pyStrip s.data = [] then none else some (String.mk (pyStrip s.data))
  | _ => none

/-- Model of `TrayScreenshotApp._extract_free_response_answer`. -/
def extract_free_response_answer (response_text : String) : Option String :=
  match extract_gemini_json_list response_text.data with
  | none => none
  | some j =>
    let is_free_response :=
      match jsonGet j "question_type" with
      | some (Json.str v) => (pyStrip v.data).map Char.toLower == "free_response".data
      | _ => false
    if is_free_response then
      match stripped_nonempty (jsonGet j "free_response_answer") with
      | some a => some a
      | none => stripped_nonempty (jsonGet j "answer")
    else none

/-- The structured answer derived from one pipeline response — the pure
interpretation step of `_analyze_with_gemini` (free response first, then
letter, else nothing). -/
inductive Answer where
  | letter (c : Char)
  | freeForm (s : String)
  | noAnswer
deriving DecidableEq

/-- The response-interpretation order of `_analyze_with_gemini`. -/
def interpret_response (response_text : String) : Answer :=
  match extract_free_response_answer response_text with
  | some a => Answer.freeForm a
  | none =>
    match extract_answer_letter response_text with
    | some c => Answer.letter c
    | none => Answer.noAnswer

/-! ### Shared application state (`TrayScreenshotApp`)

Each field mirrors one attribute guarded by `self._state_lock`; each helper
below mirrors one `with self._state_lock:` critical section of the source, so
one call of a helper is one atomic step of the real program.  Icon rendering
(`_sync_coordinate_status_icon`, `_set_loading_icon`) draws external images
and mutates no coordination state, so it is not modelled. -/

structure AppState where
  top_left : Int × Int
  bottom_right : Int × Int
  top_left_revision : Nat
  bottom_right_revision : Nat
  captured_top_left_revision : Nat
  captured_bottom_right_revision : Nat
  gemini_request_in_flight : Bool
  answer_letter_icon : Option Char
  free_response_answer_text : Option String
deriving DecidableEq

/-- Constructor state of `TrayScreenshotApp.__init__` for given corners. -/
def initial_state (top_left bottom_right : Int × Int) : AppState :=
  ⟨top_left, bottom_right, 0, 0, 0, 0, false, none, none⟩

/-- Model of `_is_capture_blocked` (one lock section: read the flag). -/
def is_capture_blocked (s : AppState) : Bool :=
  s.gemini_request_in_flight

/-- Model of `_set_capture_blocked` (one lock section: write the flag). -/
def set_capture_blocked (blocked : Bool) (s : AppState) : AppState :=
  {s with gemini_request_in_flight := blocked}

/-- Model of `_clear_answer_letter_icon`. -/
def clear_answer_letter_icon (s : AppState) : AppState :=
  {s with answer_letter_icon := none, free_response_answer_text := none}

/-- Model of `_set_answer_letter_icon`.  The source validates a *string*
against `string.ascii_uppercase` by substring containment; every call site
passes a single character, for which the check is exactly membership in
`A`–`Z`, so the model takes a `Char`. -/
def set_answer_letter_icon (answer_letter : Char) (s : AppState) :
    Except String AppState :=
  let normalized := answer_letter.toUpper
  if normalized.isUpper then
    Except.ok {s with answer_letter_icon := some normalized, free_response_answer_text := none}
  else Except.error "Answer letter must be A-Z"

/-- Model of `_set_free_response_answer`. -/
def set_free_response_answer (answer_text : String) (s : AppState) :
    Except String AppState :=
  let cleaned := pyStrip answer_text.data
  if cleaned = [] then Except.error "Free response answer cannot be empty"
  else Except.ok
    {s with free_response_answer_text := some (String.mk cleaned), answer_letter_icon := none}

/-- Model of `_set_top_left_from_mouse` given the pointer position read from
the OS (external input): no-op returning `false` on an equal position,
otherwise store the point, bump the revision, return `true`. -/
def set_top_left_from_mouse (position : Int × Int) (s : AppState) : Bool × AppState :=
  if position = s.top_left then (false, s)
  else (true, {s with top_left := position, top_left_revision := s.top_left_revision + 1})

/-- Model of `_set_bottom_right_from_mouse`. -/
def set_bottom_right_from_mouse (position : Int × Int) (s : AppState) : Bool × AppState :=
  if position = s.bottom_right then (false, s)
  else (true, {s with bottom_right := position,
                      bottom_right_revision := s.bottom_right_revision + 1})

/-- Model of `_updated_corner_count`. -/
def updated_corner_count (s : AppState) : Nat :=
  (if s.captured_top_left_revision < s.top_left_revision then 1 else 0) +
  (if s.captured_bottom_right_revision < s.bottom_right_revision then 1 else 0)

/-- The trigger condition computed inside `_try_capture_after_corner_updates`
(`both_updated`). -/
def both_corners_updated (s : AppState) : Bool :=
  decide (s.captured_top_left_revision < s.top_left_revision) &&
  decide (s.captured_bottom_right_revision < s.bottom_right_revision)

/-! ### One capture cycle

The external collaborators of a cycle — `capture_and_save` plus
`_wait_for_image_ready` (does the image materialise?), and the Gemini call
(does the pipeline deliver text, and which text?) — are modelled by an
environment record, as the spec draws the same boundary.  Observable
coordination events are collected in a trace. -/

structure CaptureEnv where
  captureOk : Bool
  pipelineOk : Bool
  responseText : String
deriving DecidableEq

inductive Ev where
  | answerCleared
  | positionCompared (corner : Nat) (changed : Bool)
  | captureRejected
  | gateAcquired
  | captureFailed
  | analysisStarted
  | markConsumedEv
  | resultDelivered (ok : Bool)
  | gateReleased
deriving DecidableEq

/-- Model of `_capture_and_process`: check the gate (its own lock section),
set it (a second lock section), capture, wait for the image, and on success
start the analysis thread.  Returns whether the analysis was started, the
state after this function returns, and the emitted events.  A `false` first
component with `Ev.captureRejected` models the gate-busy `RuntimeError`;
`Ev.captureFailed` models a capture/«file not ready» exception, after which
the gate is cleared and the exception propagates. -/
def capture_and_process (env : CaptureEnv) (s : AppState) : Bool × AppState × List Ev :=
  if is_capture_blocked s then (false, s, [Ev.captureRejected])
  else
    let s1 := set_capture_blocked true s
    if env.captureOk then (true, s1, [Ev.gateAcquired, Ev.analysisStarted])
    else (false, set_capture_blocked false s1,
          [Ev.gateAcquired, Ev.captureFailed, Ev.gateReleased])

/-- Model of `_analyze_with_gemini`, the body of the background worker
thread: on pipeline success interpret the response and commit the answer
(free response first, then letter); on pipeline failure log only; in both
cases `finally` releases the gate. -/
def analyze_with_gemini (env : CaptureEnv) (s : AppState) : AppState × List Ev :=
  if env.pipelineOk then
    let s1 :=
      match extract_free_response_answer env.responseText with
      | some a =>
        match set_free_response_answer a s with
        | Except.ok s2 => s2
        | Except.error _ => s
      | none =>
        match extract_answer_letter env.responseText with
        | some c =>
          match set_answer_letter_icon c s with
          | Except.ok s2 => s2
          | Except.error _ => s
        | none => s
    (set_capture_blocked false s1, [Ev.resultDelivered true, Ev.gateReleased])
  else (set_capture_blocked false s, [Ev.resultDelivered false, Ev.gateReleased])

/-- The main-thread half of one capture cycle: the state once the triggering
thread has finished, the events it emitted before the analysis thread was
started (`pre`), the events it emitted after (`post`, concurrent with the
worker), and whether a worker was started. -/
structure MainRun where
  state : AppState
  pre : List Ev
  post : List Ev
  spawned : Bool

/-- The assignment of the snapshotted revisions to the captured revisions at
the end of `_try_capture_after_corner_updates` — the code's `markConsumed`. -/
def mark_consumed_snapshot (tlRev brRev : Nat) (s : AppState) : AppState :=
  {s with captured_top_left_revision := tlRev, captured_bottom_right_revision := brRev}

/-- Model of `_try_capture_after_corner_updates` (the corner-update-triggered
cycle): early return if the gate is busy or not both corners are updated;
otherwise snapshot corners and revisions, run `_capture_and_process`, and
only when it returned without raising assign the snapshotted revisions as
captured.  Capture exceptions are swallowed. -/
def try_capture_after_corner_updates (env : CaptureEnv) (s : AppState) : MainRun :=
  if is_capture_blocked s then ⟨s, [], [], false⟩
  else if both_corners_updated s then
    let tlRev := s.top_left_revision
    let brRev := s.bottom_right_revision
    match capture_and_process env s with
    | (true, s1, evs) => ⟨mark_consumed_snapshot tlRev brRev s1, evs, [Ev.markConsumedEv], true⟩
    | (false, s1, evs) => ⟨s1, evs, [], false⟩
  else ⟨s, [], [], false⟩

/-- Model of `_on_capture`/`_capture_now` (the explicit capture-now cycle):
early return if the gate is busy, then `_capture_and_process` on the current
corners; exceptions are swallowed.  No captured-revision assignment exists on
this path. -/
def capture_now_run (env : CaptureEnv) (s : AppState) : MainRun :=
  if is_capture_blocked s then ⟨s, [], [], false⟩
  else
    match capture_and_process env s with
    | (true, s1, evs) => ⟨s1, evs, [], true⟩
    | (false, s1, evs) => ⟨s1, evs, [], false⟩

/-- Interleaving of two event sequences, preserving the order of each. -/
inductive Interleave : List Ev → List Ev → List Ev → Prop where
  | nil : Interleave [] [] []
  | left {a : Ev} {as bs cs : List Ev} :
      Interleave as bs cs → Interleave (a :: as) bs (a :: cs)
  | right {b : Ev} {as bs cs : List Ev} :
      Interleave as bs cs → Interleave as (b :: bs) (b :: cs)

/-- The observable event traces of one complete capture cycle: the events up
to the start of the worker in program order, then any interleaving of the
remaining main-thread events with the worker's events (the worker runs
concurrently and nothing synchronises the two). -/
def CycleTrace (r : MainRun) (env : CaptureEnv) (t : List Ev) : Prop :=
  match r.spawned with
  | true => ∃ u, Interleave r.post (analyze_with_gemini env r.state).2 u ∧ t = r.pre ++ u
  | false => t = r.pre ++ r.post

/-- The state after a complete cycle (worker included).  The post-spawn
main-thread write (captured revisions) and the worker writes (answer fields,
gate) touch disjoint fields, so the final state is interleaving-independent
and can be computed sequentially. -/
def cycle_final (r : MainRun) (env : CaptureEnv) : AppState :=
  match r.spawned with
  | true => (analyze_with_gemini env r.state).1
  | false => r.state

/-- Model of `_on_hotkey` run to completion of the cycle it may start:
unconditionally clear any cached answer, then dispatch on the hotkey id to
the corner update (the position comparison) followed by the capture
attempt.  The trace is the sequential main-thread order. -/
def on_hotkey (env : CaptureEnv) (hotkey_id : Nat) (position : Int × Int) (s : AppState) :
    AppState × List Ev :=
  let s0 := clear_answer_letter_icon s
  if hotkey_id = 1 then
    let r := set_top_left_from_mouse position s0
    let m := try_capture_after_corner_updates env r.2
    (cycle_final m env, [Ev.answerCleared, Ev.positionCompared 1 r.1] ++ m.pre ++ m.post)
  else if hotkey_id = 2 then
    let r := set_bottom_right_from_mouse position s0
    let m := try_capture_after_corner_updates env r.2
    (cycle_final m env, [Ev.answerCleared, Ev.positionCompared 2 r.1] ++ m.pre ++ m.post)
  else (s0, [Ev.answerCleared])

/-- Event `a` occurs strictly before event `b` somewhere in trace `t`. -/
def EvBefore (t : List Ev) (a b : Ev) : Prop :=
  ∃ i j, i < j ∧ t.get? i = some a ∧ t.get? j = some b

/-! ### The corner tracker as a sequential operation language (claims C6, C7)

The three mutations of the tracker fields in the source are the two corner
setters and the captured-revision assignment of
`_try_capture_after_corner_updates`; under sequential execution the
snapshotted revisions assigned there equal the current ones. -/

inductive TrackerOp where
  | updateTopLeft (p : Int × Int)
  | updateBottomRight (p : Int × Int)
  | markConsumed

/-- Apply one tracker operation. -/
def tracker_apply (s : AppState) : TrackerOp → AppState
  | TrackerOp.updateTopLeft p => (set_top_left_from_mouse p s).2
  | TrackerOp.updateBottomRight p => (set_bottom_right_from_mouse p s).2
  | TrackerOp.markConsumed =>
    {s with captured_top_left_revision := s.top_left_revision,
            captured_bottom_right_revision := s.bottom_right_revision}

/-- Run a sequence of tracker operations. -/
def tracker_run (s : AppState) : List TrackerOp → AppState
  | [] => s
  | op :: ops => tracker_run (tracker_apply s op) ops

/-- Specification-side bookkeeping for claim C6: fold over the operation
sequence tracking the current corner positions and, per corner, whether a
position-changing update has happened since the last mark-consumed. -/
def changed_since_consume (tl br : Int × Int) (fTL fBR : Bool) :
    List TrackerOp → Bool × Bool
  | [] => (fTL, fBR)
  | TrackerOp.updateTopLeft p :: ops =>
    if p = tl then changed_since_consume tl br fTL fBR ops
    else changed_since_consume p br true fBR ops
  | TrackerOp.updateBottomRight p :: ops =>
    if p = br then changed_since_consume tl br fTL fBR ops
    else changed_since_consume tl p fTL true ops
  | TrackerOp.markConsumed :: ops => changed_since_consume tl br false false ops

/-! ### The capture-gate acquisition as two atomic steps (claim C2)

In `_capture_and_process` the gate test (`_is_capture_blocked`, lines
371–372) and the gate set (`_set_capture_blocked(True)`, line 374) each take
`self._state_lock` separately, so each is one atomic step and another thread
can run between them.  A thread at the gate is therefore a two-step program:
`start` (read the flag; branch to `rejected` or `acquire`) and `acquire`
(write the flag `True`; now `passed`). -/

inductive GatePC where
  | start
  | acquire
  | passed
  | rejected
deriving DecidableEq

/-- One atomic step of one thread at the gate. -/
def gate_thread_step (gate : Bool) (pc : GatePC) : Bool × GatePC :=
  match pc with
  | GatePC.start => (gate, if gate then GatePC.rejected else GatePC.acquire)
  | GatePC.acquire => (true, GatePC.passed)
  | pc => (gate, pc)

/-- Two threads attempting the gate concurrently. -/
structure GateSys where
  gate : Bool
  t1 : GatePC
  t2 : GatePC
deriving DecidableEq

/-- Scheduler step: `false` steps thread 1, `true` steps thread 2. -/
def gate_sys_step (sys : GateSys) (who : Bool) : GateSys :=
  if who then
    let r := gate_thread_step sys.gate sys.t2
    ⟨r.1, sys.t1, r.2⟩
  else
    let r := gate_thread_step sys.gate sys.t1
    ⟨r.1, r.2, sys.t2⟩

/-- Run a schedule. -/
def gate_run (sys : GateSys) : List Bool → GateSys
  | [] => sys
  | w :: ws => gate_run (gate_sys_step sys w) ws

/-- Both threads at the gate check, gate free. -/
def gate_init : GateSys := ⟨false, GatePC.start, GatePC.start⟩

/-! ### Screen-region construction (`screenshot_snippet.py`, claim C9) -/

structure ScreenRegion where
  left : Int
  top : Int
  width : Int
  height : Int
deriving DecidableEq

/-- Model of `_build_monitor_region`: normalise the two corners and reject a
zero-width or zero-height rectangle. -/
def build_monitor_region (top_left bottom_right : Int × Int) :
    Except String ScreenRegion :=
  let left := min top_left.1 bottom_right.1
  let right := max top_left.1 bottom_right.1
  let top := min top_left.2 bottom_right.2
  let bottom := max top_left.2 bottom_right.2
  if right = left ∨ bottom = top then
    Except.error "Invalid rectangle: capture area must have non-zero width and height."
  else Except.ok ⟨left, top, right - left, bottom - top⟩

/-- Model of `_clamp_region_to_virtual_desktop`; the virtual-desktop monitor
(`sct.monitors[0]`) is external input. -/
def clamp_region_to_virtual_desktop (virtual_monitor region : ScreenRegion) :
    Except String ScreenRegion :=
  let virtual_left := virtual_monitor.left
  let virtual_top := virtual_monitor.top
  let virtual_right := virtual_left + virtual_monitor.width
  let virtual_bottom := virtual_top + virtual_monitor.height
  let requested_left := region.left
  let requested_top := region.top
  let requested_right := requested_left + region.width
  let requested_bottom := requested_top + region.height
  let clamped_left := max requested_left virtual_left
  let clamped_top := max requested_top virtual_top
  let clamped_right := min requested_right virtual_right
  let clamped_bottom := min requested_bottom virtual_bottom
  if clamped_right ≤ clamped_left ∨ clamped_bottom ≤ clamped_top then
    Except.error "Capture area is outside the visible virtual desktop."
  else Except.ok ⟨clamped_left, clamped_top,
                  clamped_right - clamped_left, clamped_bottom - clamped_top⟩

/-- The region-construction part of `capture_screenshot`: build then clamp. -/
def capture_region (virtual_monitor : ScreenRegion) (top_left bottom_right : Int × Int) :
    Except String ScreenRegion :=
  match build_monitor_region top_left bottom_right with
  | Except.ok region => clamp_region_to_virtual_desktop virtual_monitor region
  | Except.error e => Except.error e

/-- Did region construction fail? -/
def region_failed (r : Except String ScreenRegion) : Bool :=
  match r with
  | Except.error _ => true
  | Except.ok _ => false

/-- Specification-side: the integer pixels covered by a region (half-open on
the right and bottom, as MSS regions are). -/
def inRegion (r : ScreenRegion) (p : Int × Int) : Prop :=
  r.left ≤ p.1 ∧ p.1 < r.left + r.width ∧ r.top ≤ p.2 ∧ p.2 < r.top + r.height

/-- Specification-side: the normalised rectangle spanned by the two corner
points. -/
def cornerRect (top_left bottom_right : Int × Int) : ScreenRegion :=
  ⟨min top_left.1 bottom_right.1, min top_left.2 bottom_right.2,
   max top_left.1 bottom_right.1 - min top_left.1 bottom_right.1,
   max top_left.2 bottom_right.2 - min top_left.2 bottom_right.2⟩

/-- Specification-side: a degenerate corner pair (zero width or height). -/
def degenerateRect (top_left bottom_right : Int × Int) : Prop :=
  top_left.1 = bottom_right.1 ∨ top_left.2 = bottom_right.2

/-! ### Concrete fixtures used by witnesses and counterexamples

All states are reached from the constructor state by hotkey events, so every
counterexample is a run of the program. -/

/-- Environment: capture succeeds, the pipeline fails (network error). -/
def env_pipeline_fail : CaptureEnv := ⟨true, false, ""⟩

/-- Environment: capture and pipeline succeed. -/
def env_all_ok : CaptureEnv := ⟨true, true, "x"⟩

/-- Environment: the capture itself fails (no image is produced). -/
def env_capture_fail : CaptureEnv := ⟨false, false, ""⟩

/-- The constructor state with the default corners. -/
def app_start : AppState := initial_state (100, 100) (700, 500)

/-- After a top-left hotkey at (0,0): one corner updated, no capture fires. -/
def stage1 : AppState := (on_hotkey env_capture_fail 1 (0, 0) app_start).1

/-- After a bottom-right hotkey at (5,5) whose capture attempt fails before
the image exists: both corners hold unconsumed updates, gate free. -/
def stage2 : AppState := (on_hotkey env_capture_fail 2 (5, 5) stage1).1

/-- A complete trace of the corner-triggered cycle on `stage2` under
`env_pipeline_fail`, with the main thread scheduled first after the spawn. -/
def trace_corner_pipeline_fail : List Ev :=
  [Ev.gateAcquired, Ev.analysisStarted, Ev.markConsumedEv,
   Ev.resultDelivered false, Ev.gateReleased]

/-- A complete trace of the corner-triggered cycle on `stage2` under
`env_all_ok`, with the main thread scheduled first after the spawn: the
captured revisions are assigned before the result is delivered. -/
def trace_corner_all_ok : List Ev :=
  [Ev.gateAcquired, Ev.analysisStarted, Ev.markConsumedEv,
   Ev.resultDelivered true, Ev.gateReleased]

/-- A complete trace of the corner-triggered cycle on `stage2` under
`env_pipeline_fail` with the worker scheduled around the main thread. -/
def trace_corner_worker_first : List Ev :=
  [Ev.gateAcquired, Ev.analysisStarted, Ev.resultDelivered false,
   Ev.markConsumedEv, Ev.gateReleased]

/-- The unique complete trace of the capture-now cycle on `stage2` under
`env_all_ok` (its main thread emits nothing after the spawn). -/
def trace_capture_now_ok : List Ev :=
  [Ev.gateAcquired, Ev.analysisStarted, Ev.resultDelivered true, Ev.gateReleased]

/-- The response text of the C4 counterexample: a JSON object whose `answer`
field is not a single letter. -/
def c4_input : String := "\x7b\"answer\":\"maybe B\"\x7d"

/-- The raw response text of the C5 check (no JSON anywhere). -/
def c5_input : String := "The correct answer is: (B)"

/-! ### Helper lemmas -/

/-- Counting events is invariant under interleaving. -/
theorem interleave_count {as bs cs : List Ev} (h : Interleave as bs cs) (x : Ev) :
    cs.count x = as.count x + bs.count x := by
  induction h with
  | nil => rfl
  | left h ih =>
    rename_i a _ _ _
    by_cases hax : a = x
    · simp [List.count_cons, hax, ih]
      omega
    · simp [List.count_cons, hax, ih]
  | right h ih =>
    rename_i b _ _ _
    by_cases hbx : b = x
    · simp [List.count_cons, hbx, ih]
      omega
    · simp [List.count_cons, hbx, ih]

/-- Clearing the answer state twice equals clearing it once. -/
theorem clear_answer_letter_icon_idem (s : AppState) :
    clear_answer_letter_icon (clear_answer_letter_icon s) = clear_answer_letter_icon s := rfl

/-! ### Claim C2 -/

/-- C2: gate acquisition is claimed to be one atomic check-and-set critical
section, so two concurrent triggers can never both pass the gate.  In the
source the check (`_is_capture_blocked`) and the set
(`_set_capture_blocked(True)`) each take the state lock separately; under
the schedule in which both threads perform their check before either
performs its set, both threads pass the gate. -/
theorem C2_both_threads_pass_gate :
    (gate_run gate_init [false, true, false, true]).t1 = GatePC.passed ∧
    (gate_run gate_init [false, true, false, true]).t2 = GatePC.passed :=
  ⟨rfl, rfl⟩

/-! ### Claim C5 -/

/-- C5: the claim says the raw text `"The correct answer is: (B)"` yields the
letter answer `B`.  The answer-label regex alternative `CORRECT\s+ANSWER`
matches at "CORRECT ANSWER", after which every remaining piece of the
pattern up to `([A-Z])` may match empty, so the captured letter is the `I`
of "IS" — the code returns `I`, not `B`. -/
theorem C5_code_returns_I_not_B :
    extract_answer_letter c5_input = some 'I' ∧
    extract_answer_letter c5_input ≠ some 'B' := by
  refine ⟨rfl, by decide⟩

/-! ### Claim C4 -/

/-- C4 counterexample: for `\x7b"answer":"maybe B"\x7d` a JSON object is
obtained, it yields no usable free-response answer and its `answer` field is
not a single letter — yet the interpreter returns `Letter('B')`, found by the
raw-text standalone-letter fallback, instead of yielding no structured
answer.  This refutes both parts of the claim (the "yields no structured
answer" conclusion and "the fallback is applied only when no JSON object was
obtainable"). -/
theorem C4_counterexample_fallback_after_json :
    extract_gemini_json c4_input = some (Json.obj [("answer", Json.str "maybe B")]) ∧
    extract_free_response_answer c4_input = none ∧
    json_answer_letter (extract_gemini_json_list (pyStrip c4_input.data)) = none ∧
    interpret_response c4_input = Answer.letter 'B' ∧
    Answer.letter 'B' ≠ Answer.noAnswer :=
  ⟨rfl, rfl, rfl, rfl, by decide⟩

/-- C4 (amended): when a JSON object is obtained but yields neither a usable
free-response answer nor a single-letter `answer` field, the interpreter
still applies the raw-text pattern fallback to the full text, and yields no
structured answer only if that fallback also finds nothing. -/
theorem C4_json_unusable_uses_raw_fallback (t : String) (j : Json)
    (_hjson : extract_gemini_json_list (pyStrip t.data) = some j)
    (hfree : extract_free_response_answer t = none)
    (hletter : json_answer_letter (extract_gemini_json_list (pyStrip t.data)) = none) :
    interpret_response t =
      (match raw_text_answer_letter ((pyStrip t.data).map Char.toUpper) with
       | some c => Answer.letter c
       | none => Answer.noAnswer) := by
  simp only [interpret_response, hfree, extract_answer_letter, hletter]

/-- C4 witness: the amended theorem applied at the counterexample input. -/
theorem C4_witness : interpret_response c4_input = Answer.letter 'B' :=
  (C4_json_unusable_uses_raw_fallback c4_input
    (Json.obj [("answer", Json.str "maybe B")]) rfl rfl rfl).trans rfl

/-! ### Claim C6 -/

/-- Generalisation of C6 to any start state whose captured revisions are
consistent with the given flags. -/
theorem changed_since_consume_spec (ops : List TrackerOp) :
    ∀ (s : AppState) (fTL fBR : Bool),
    s.captured_top_left_revision ≤ s.top_left_revision →
    s.captured_bottom_right_revision ≤ s.bottom_right_revision →
    decide (s.captured_top_left_revision < s.top_left_revision) = fTL →
    decide (s.captured_bottom_right_revision < s.bottom_right_revision) = fBR →
    both_corners_updated (tracker_run s ops) =
      ((changed_since_consume s.top_left s.bottom_right fTL fBR ops).1 &&
       (changed_since_consume s.top_left s.bottom_right fTL fBR ops).2) := by
  induction ops with
  | nil =>
    intro s fTL fBR _ _ h3 h4
    simp [tracker_run, changed_since_consume, both_corners_updated, h3, h4]
  | cons op ops ih =>
    intro s fTL fBR h1 h2 h3 h4
    cases op with
    | updateTopLeft p =>
      by_cases hp : p = s.top_left
      · simpa [tracker_run, tracker_apply, set_top_left_from_mouse, hp,
          changed_since_consume] using ih s fTL fBR h1 h2 h3 h4
      · have := ih {s with top_left := p, top_left_revision := s.top_left_revision + 1}
          true fBR (by simpa using Nat.le_succ_of_le h1) h2
          (by simp; omega) (by simpa using h4)
        simpa [tracker_run, tracker_apply, set_top_left_from_mouse, hp,
          changed_since_consume] using this
    | updateBottomRight p =>
      by_cases hp : p = s.bottom_right
      · simpa [tracker_run, tracker_apply, set_bottom_right_from_mouse, hp,
          changed_since_consume] using ih s fTL fBR h1 h2 h3 h4
      · have := ih {s with bottom_right := p, bottom_right_revision := s.bottom_right_revision + 1}
          fTL true h1 (by simpa using Nat.le_succ_of_le h2)
          (by simpa using h3) (by simp; omega)
        simpa [tracker_run, tracker_apply, set_bottom_right_from_mouse, hp,
          changed_since_consume] using this
    | markConsumed =>
      have := ih {s with captured_top_left_revision := s.top_left_revision,
                         captured_bottom_right_revision := s.bottom_right_revision}
        false false (by simp) (by simp) (by simp) (by simp)
      simpa [tracker_run, tracker_apply, changed_since_consume] using this

/-- C6: starting from the constructor state, the trigger condition of
`_try_capture_after_corner_updates` is true exactly when each corner has
received at least one position-changing update since the revisions were last
marked consumed. -/
theorem C6_trigger_iff_both_changed_since_consume (ops : List TrackerOp) (tl br : Int × Int) :
    both_corners_updated (tracker_run (initial_state tl br) ops) =
      ((changed_since_consume tl br false false ops).1 &&
       (changed_since_consume tl br false false ops).2) :=
  changed_since_consume_spec ops (initial_state tl br) false false
    (Nat.le_refl 0) (Nat.le_refl 0) rfl rfl

/-! ### Claim C7 -/

/-- C7: every tracker operation preserves `consumed_revision ≤ revision` for
both corners; revisions never decrease, change by at most one, and change by
exactly one precisely on a position-changing update. -/
theorem C7_tracker_invariants_preserved (s : AppState) (op : TrackerOp)
    (hTL : s.captured_top_left_revision ≤ s.top_left_revision)
    (hBR : s.captured_bottom_right_revision ≤ s.bottom_right_revision) :
    ((tracker_apply s op).captured_top_left_revision ≤
        (tracker_apply s op).top_left_revision ∧
     (tracker_apply s op).captured_bottom_right_revision ≤
        (tracker_apply s op).bottom_right_revision) ∧
    (s.top_left_revision ≤ (tracker_apply s op).top_left_revision ∧
     (tracker_apply s op).top_left_revision ≤ s.top_left_revision + 1) ∧
    (s.bottom_right_revision ≤ (tracker_apply s op).bottom_right_revision ∧
     (tracker_apply s op).bottom_right_revision ≤ s.bottom_right_revision + 1) ∧
    (∀ p, op = TrackerOp.updateTopLeft p →
      (tracker_apply s op).top_left_revision =
        (if p = s.top_left then s.top_left_revision else s.top_left_revision + 1)) ∧
    (∀ p, op = TrackerOp.updateBottomRight p →
      (tracker_apply s op).bottom_right_revision =
        (if p = s.bottom_right then s.bottom_right_revision else s.bottom_right_revision + 1)) := by
  cases op with
  | updateTopLeft p =>
    by_cases hp : p = s.top_left <;>
      simp_all [tracker_apply, set_top_left_from_mouse]
    omega
  | updateBottomRight p =>
    by_cases hp : p = s.bottom_right <;>
      simp_all [tracker_apply, set_bottom_right_from_mouse]
    omega
  | markConsumed =>
    simp_all [tracker_apply]

/-- C7 witness: the invariants hold across a concrete position-changing
update of the constructor state. -/
theorem C7_witness :
    (tracker_apply app_start (TrackerOp.updateTopLeft (1, 2))).captured_top_left_revision ≤
      (tracker_apply app_start (TrackerOp.updateTopLeft (1, 2))).top_left_revision ∧
    (tracker_apply app_start (TrackerOp.updateTopLeft (1, 2))).top_left_revision =
      app_start.top_left_revision + 1 := by
  have h := C7_tracker_invariants_preserved app_start (TrackerOp.updateTopLeft (1, 2))
    (by decide) (by decide)
  refine ⟨h.1.1, ?_⟩
  have h2 := h.2.2.2.1 (1, 2) rfl
  rw [h2]
  decide

/-! ### Claim C9 -/

/-- Two integer pixel regions share a point iff the clamped bounds are
non-trivial in both axes. -/
theorem inRegion_inter_iff (r1 r2 : ScreenRegion) :
    (∃ p, inRegion r1 p ∧ inRegion r2 p) ↔
    (max r1.left r2.left < min (r1.left + r1.width) (r2.left + r2.width) ∧
     max r1.top r2.top < min (r1.top + r1.height) (r2.top + r2.height)) := by
  constructor
  · rintro ⟨⟨x, y⟩, ⟨h1, h2, h3, h4⟩, h5, h6, h7, h8⟩
    omega
  · rintro ⟨h1, h2⟩
    refine ⟨(max r1.left r2.left, max r1.top r2.top), ⟨?_, ?_, ?_, ?_⟩, ?_, ?_, ?_, ?_⟩ <;>
      (dsimp only; omega)

/-- C9: region construction fails exactly when the corner rectangle is
degenerate or shares no pixel with the virtual desktop, and on success the
produced region is exactly the intersection of the corner rectangle with the
virtual desktop (the clamped rectangle). -/
theorem C9_region_failure_iff (virt : ScreenRegion) (tl br : Int × Int) :
    (region_failed (capture_region virt tl br) = true ↔
      degenerateRect tl br ∨ ¬ ∃ p, inRegion (cornerRect tl br) p ∧ inRegion virt p) ∧
    (∀ r, capture_region virt tl br = Except.ok r →
      ∀ p, (inRegion r p ↔ inRegion (cornerRect tl br) p ∧ inRegion virt p)) := by
  obtain ⟨ax, ay⟩ := tl
  obtain ⟨bx, byy⟩ := br
  by_cases h1 : max ax bx = min ax bx ∨ max ay byy = min ay byy
  · have hb : capture_region virt (ax, ay) (bx, byy) =
        Except.error "Invalid rectangle: capture area must have non-zero width and height." := by
      simp only [capture_region, build_monitor_region]
      rw [if_pos h1]
    refine ⟨?_, ?_⟩
    · rw [hb]
      simp only [region_failed]
      refine ⟨fun _ => Or.inl ?_, fun _ => trivial⟩
      simp only [degenerateRect]
      omega
    · intro r hr
      rw [hb] at hr
      cases hr
  · have hb : capture_region virt (ax, ay) (bx, byy) =
        clamp_region_to_virtual_desktop virt
          ⟨min ax bx, min ay byy, max ax bx - min ax bx, max ay byy - min ay byy⟩ := by
      simp only [capture_region, build_monitor_region]
      rw [if_neg h1]
    have hdeg : ¬ degenerateRect (ax, ay) (bx, byy) := by
      simp only [degenerateRect]
      omega
    by_cases h2 :
        min (min ax bx + (max ax bx - min ax bx)) (virt.left + virt.width) ≤
          max (min ax bx) virt.left ∨
        min (min ay byy + (max ay byy - min ay byy)) (virt.top + virt.height) ≤
          max (min ay byy) virt.top
    · have hc : capture_region virt (ax, ay) (bx, byy) =
          Except.error "Capture area is outside the visible virtual desktop." := by
        rw [hb]
        simp only [clamp_region_to_virtual_desktop]
        rw [if_pos h2]
      refine ⟨?_, ?_⟩
      · rw [hc]
        simp only [region_failed]
        refine ⟨fun _ => Or.inr ?_, fun _ => trivial⟩
        rw [inRegion_inter_iff]
        simp only [cornerRect]
        omega
      · intro r hr
        rw [hc] at hr
        cases hr
    · have hc : capture_region virt (ax, ay) (bx, byy) =
          Except.ok ⟨max (min ax bx) virt.left, max (min ay byy) virt.top,
            min (min ax bx + (max ax bx - min ax bx)) (virt.left + virt.width) -
              max (min ax bx) virt.left,
            min (min ay byy + (max ay byy - min ay byy)) (virt.top + virt.height) -
              max (min ay byy) virt.top⟩ := by
        rw [hb]
        simp only [clamp_region_to_virtual_desktop]
        rw [if_neg h2]
      refine ⟨?_, ?_⟩
      · rw [hc]
        simp only [region_failed]
        constructor
        · intro h
          cases h
        · intro h
          rcases h with h | h
          · exact absurd h hdeg
          · exfalso
            apply h
            rw [inRegion_inter_iff]
            simp only [cornerRect]
            omega
      · intro r hr
        rw [hc] at hr
        cases hr
        intro p
        obtain ⟨px, py⟩ := p
        simp only [inRegion, cornerRect]
        omega

/-- C9 witness: a degenerate corner pair fails, and a clamped success region
contains exactly the points common to the corner rectangle and the desktop. -/
theorem C9_witness :
    (region_failed (capture_region ⟨0, 0, 100, 100⟩ (3, 4) (3, 9)) = true) ∧
    (inRegion ⟨0, 0, 10, 10⟩ (5, 5) ↔
      inRegion (cornerRect (0, 0) (10, 10)) (5, 5) ∧ inRegion ⟨0, 0, 100, 100⟩ (5, 5)) := by
  refine ⟨?_, ?_⟩
  · exact (C9_region_failure_iff ⟨0, 0, 100, 100⟩ (3, 4) (3, 9)).1.mpr
      (Or.inl (by simp [degenerateRect]))
  · exact (C9_region_failure_iff ⟨0, 0, 100, 100⟩ (0, 0) (10, 10)).2 ⟨0, 0, 10, 10⟩ rfl (5, 5)

/-! ### Claim C1 -/

/-- The worker's `finally` always leaves the gate released. -/
theorem analyze_with_gemini_releases_gate (env : CaptureEnv) (s : AppState) :
    (analyze_with_gemini env s).1.gemini_request_in_flight = false := by
  by_cases hp : env.pipelineOk <;> simp [analyze_with_gemini, hp, set_capture_blocked]

/-- The worker emits exactly the result delivery and the gate release. -/
theorem analyze_with_gemini_events (env : CaptureEnv) (s : AppState) :
    (analyze_with_gemini env s).2 = [Ev.resultDelivered env.pipelineOk, Ev.gateReleased] := by
  by_cases hp : env.pipelineOk <;> simp [analyze_with_gemini, hp]

/-- C1 (amended): every accepted cycle ends with the gate released; a
corner-update-triggered cycle invokes the captured-revision assignment
exactly once when the capture succeeded (whether or not the pipeline then
failed) and never when the capture failed before the image existed; an
explicit capture-now cycle never invokes it at all. -/
theorem C1_cycle_releases_gate_consumes_once (env : CaptureEnv) (s : AppState) (t : List Ev)
    (hfree : is_capture_blocked s = false) :
    (CycleTrace (try_capture_after_corner_updates env s) env t →
      (cycle_final (try_capture_after_corner_updates env s) env).gemini_request_in_flight
          = false ∧
      (both_corners_updated s = true → env.captureOk = true →
        t.count Ev.markConsumedEv = 1) ∧
      (env.captureOk = false → t.count Ev.markConsumedEv = 0) ∧
      (both_corners_updated s = false → t.count Ev.markConsumedEv = 0)) ∧
    (CycleTrace (capture_now_run env s) env t →
      (cycle_final (capture_now_run env s) env).gemini_request_in_flight = false ∧
      t.count Ev.markConsumedEv = 0) := by
  constructor
  · intro htr
    by_cases hup : both_corners_updated s
    · by_cases hcap : env.captureOk
      · have hrun : try_capture_after_corner_updates env s =
            ⟨mark_consumed_snapshot s.top_left_revision s.bottom_right_revision
               (set_capture_blocked true s),
             [Ev.gateAcquired, Ev.analysisStarted], [Ev.markConsumedEv], true⟩ := by
          simp [try_capture_after_corner_updates, capture_and_process, hfree, hup, hcap]
        rw [hrun] at htr
        obtain ⟨u, hu, ht⟩ := htr
        subst ht
        rw [hrun]
        refine ⟨analyze_with_gemini_releases_gate env _, ?_, ?_, ?_⟩
        · intro _ _
          have hc := interleave_count hu Ev.markConsumedEv
          rw [analyze_with_gemini_events] at hc
          simp [List.count_append, List.count_cons] at hc ⊢
          omega
        · intro hcap'
          rw [hcap'] at hcap
          cases hcap
        · intro hup'
          rw [hup'] at hup
          cases hup
      · have hrun : try_capture_after_corner_updates env s =
            ⟨set_capture_blocked false (set_capture_blocked true s),
             [Ev.gateAcquired, Ev.captureFailed, Ev.gateReleased], [], false⟩ := by
          simp [try_capture_after_corner_updates, capture_and_process, hfree, hup, hcap]
        rw [hrun] at htr
        have ht : t = [Ev.gateAcquired, Ev.captureFailed, Ev.gateReleased] := htr
        subst ht
        rw [hrun]
        exact ⟨rfl, fun _ hcap' => absurd hcap' (by simp_all), fun _ => by decide,
          fun hup' => by decide⟩
    · have hrun : try_capture_after_corner_updates env s = ⟨s, [], [], false⟩ := by
        simp [try_capture_after_corner_updates, hfree, hup]
      rw [hrun] at htr
      have ht : t = [] := htr
      subst ht
      rw [hrun]
      exact ⟨hfree, fun hup' => absurd hup' hup, fun _ => rfl, fun _ => rfl⟩
  · intro htr
    by_cases hcap : env.captureOk
    · have hrun : capture_now_run env s =
          ⟨set_capture_blocked true s, [Ev.gateAcquired, Ev.analysisStarted], [], true⟩ := by
        simp [capture_now_run, capture_and_process, hfree, hcap]
      rw [hrun] at htr
      obtain ⟨u, hu, ht⟩ := htr
      subst ht
      rw [hrun]
      refine ⟨analyze_with_gemini_releases_gate env _, ?_⟩
      have hc := interleave_count hu Ev.markConsumedEv
      rw [analyze_with_gemini_events] at hc
      simp [List.count_append, List.count_cons] at hc ⊢
      omega
    · have hrun : capture_now_run env s =
          ⟨set_capture_blocked false (set_capture_blocked true s),
           [Ev.gateAcquired, Ev.captureFailed, Ev.gateReleased], [], false⟩ := by
        simp [capture_now_run, capture_and_process, hfree, hcap]
      rw [hrun] at htr
      have ht : t = [Ev.gateAcquired, Ev.captureFailed, Ev.gateReleased] := htr
      subst ht
      rw [hrun]
      exact ⟨rfl, by decide⟩

/-- C1 counterexample: a successful explicit capture-now cycle (capture and
pipeline both succeed) whose complete trace invokes the captured-revision
assignment zero times, not exactly once as the claim states. -/
theorem C1_counterexample_capture_now_no_consume :
    is_capture_blocked stage2 = false ∧
    env_all_ok.captureOk = true ∧ env_all_ok.pipelineOk = true ∧
    CycleTrace (capture_now_run env_all_ok stage2) env_all_ok trace_capture_now_ok ∧
    trace_capture_now_ok.count Ev.markConsumedEv = 0 := by
  refine ⟨rfl, rfl, rfl, ?_, by decide⟩
  exact ⟨[Ev.resultDelivered true, Ev.gateReleased],
    Interleave.right (Interleave.right Interleave.nil), rfl⟩

/-- C1 witness: the amended theorem applied to a concrete corner-triggered
cycle whose pipeline fails after the image was produced. -/
theorem C1_witness :
    (cycle_final (try_capture_after_corner_updates env_pipeline_fail stage2)
        env_pipeline_fail).gemini_request_in_flight = false ∧
    trace_corner_pipeline_fail.count Ev.markConsumedEv = 1 := by
  have h := (C1_cycle_releases_gate_consumes_once env_pipeline_fail stage2
      trace_corner_pipeline_fail rfl).1
    ⟨[Ev.markConsumedEv, Ev.resultDelivered false, Ev.gateReleased],
     Interleave.left (Interleave.right (Interleave.right Interleave.nil)), rfl⟩
  exact ⟨h.1, h.2.1 rfl rfl⟩

/-! ### Claim C3 -/

/-- C3 (amended): the captured-revision assignment happens only in a cycle
that was accepted (gate free, both corners updated) and whose capture
succeeded, and always after the analysis thread was started — but it may
happen before the analysis result is delivered. -/
theorem C3_consume_only_after_analysis_start (env : CaptureEnv) (s : AppState) (t : List Ev)
    (htr : CycleTrace (try_capture_after_corner_updates env s) env t)
    (hmem : Ev.markConsumedEv ∈ t) :
    is_capture_blocked s = false ∧ both_corners_updated s = true ∧ env.captureOk = true ∧
    EvBefore t Ev.analysisStarted Ev.markConsumedEv := by
  by_cases hfree : is_capture_blocked s
  · have hrun : try_capture_after_corner_updates env s = ⟨s, [], [], false⟩ := by
      simp [try_capture_after_corner_updates, hfree]
    rw [hrun] at htr
    have ht : t = [] := htr
    subst ht
    cases hmem
  · by_cases hup : both_corners_updated s
    · by_cases hcap : env.captureOk
      · have hrun : try_capture_after_corner_updates env s =
            ⟨mark_consumed_snapshot s.top_left_revision s.bottom_right_revision
               (set_capture_blocked true s),
             [Ev.gateAcquired, Ev.analysisStarted], [Ev.markConsumedEv], true⟩ := by
          simp [try_capture_after_corner_updates, capture_and_process, hfree, hup, hcap]
        rw [hrun] at htr
        obtain ⟨u, hu, ht⟩ := htr
        subst ht
        refine ⟨by simpa using hfree, hup, hcap, ?_⟩
        have hmemu : Ev.markConsumedEv ∈ u := by
          simpa using hmem
        obtain ⟨k, hk⟩ := List.mem_iff_get?.1 hmemu
        exact ⟨1, k + 2, by omega, rfl, hk⟩
      · have hrun : try_capture_after_corner_updates env s =
            ⟨set_capture_blocked false (set_capture_blocked true s),
             [Ev.gateAcquired, Ev.captureFailed, Ev.gateReleased], [], false⟩ := by
          simp [try_capture_after_corner_updates, capture_and_process, hfree, hup, hcap]
        rw [hrun] at htr
        have ht : t = [Ev.gateAcquired, Ev.captureFailed, Ev.gateReleased] := htr
        subst ht
        exact absurd hmem (by decide)
    · have hrun : try_capture_after_corner_updates env s = ⟨s, [], [], false⟩ := by
        simp [try_capture_after_corner_updates, hfree, hup]
      rw [hrun] at htr
      have ht : t = [] := htr
      subst ht
      cases hmem

/-- C3 counterexample: a valid complete trace of a corner-triggered cycle in
which the captured revisions are updated (index 2) strictly before the
analysis result is delivered (index 3), refuting "never precedes". -/
theorem C3_counterexample_consume_before_result :
    CycleTrace (try_capture_after_corner_updates env_all_ok stage2) env_all_ok
      trace_corner_all_ok ∧
    EvBefore trace_corner_all_ok Ev.markConsumedEv (Ev.resultDelivered true) := by
  refine ⟨⟨[Ev.markConsumedEv, Ev.resultDelivered true, Ev.gateReleased],
    Interleave.left (Interleave.right (Interleave.right Interleave.nil)), rfl⟩,
    2, 3, by omega, rfl, rfl⟩

/-- C3 witness: the amended theorem applied to a concrete trace in which the
worker is scheduled between the spawn and the captured-revision update. -/
theorem C3_witness :
    is_capture_blocked stage2 = false ∧ both_corners_updated stage2 = true ∧
    env_pipeline_fail.captureOk = true ∧
    EvBefore trace_corner_worker_first Ev.analysisStarted Ev.markConsumedEv :=
  C3_consume_only_after_analysis_start env_pipeline_fail stage2 trace_corner_worker_first
    ⟨[Ev.resultDelivered false, Ev.markConsumedEv, Ev.gateReleased],
     Interleave.right (Interleave.left (Interleave.right Interleave.nil)), rfl⟩
    (by decide)

/-! ### Claim C8 -/

/-- The capture attempt of a hotkey event acquires the gate exactly when the
gate is free and both corners hold unconsumed updates — independently of
whether the event itself changed anything. -/
theorem gateAcquired_mem_try_capture (env : CaptureEnv) (s : AppState) :
    Ev.gateAcquired ∈ (try_capture_after_corner_updates env s).pre ++
        (try_capture_after_corner_updates env s).post ↔
    (is_capture_blocked s = false ∧ both_corners_updated s = true) := by
  by_cases hb : is_capture_blocked s
  · simp [try_capture_after_corner_updates, hb]
  · by_cases hup : both_corners_updated s
    · by_cases hcap : env.captureOk
      · simp [try_capture_after_corner_updates, capture_and_process, hb, hup, hcap]
      · simp [try_capture_after_corner_updates, capture_and_process, hb, hup, hcap]
    · simp [try_capture_after_corner_updates, hb, hup]

/-- C8 (amended): updating a corner to its exact current position is a no-op
returning `false` that leaves the state (and so the revision) unchanged,
while updating it to a differing point stores the point, increments the
revision by one and returns `true`; however the hotkey event acquires the
gate and starts a capture exactly when the gate is free and both corners
already hold unconsumed updates — independently of whether this event's
update was a no-op — so a no-op event can still trigger a capture. -/
theorem C8_noop_update_and_trigger_condition (env : CaptureEnv) (position : Int × Int)
    (s : AppState) :
    (position = s.top_left → set_top_left_from_mouse position s = (false, s)) ∧
    (position ≠ s.top_left →
      set_top_left_from_mouse position s =
        (true, {s with top_left := position,
                       top_left_revision := s.top_left_revision + 1})) ∧
    (position = s.bottom_right → set_bottom_right_from_mouse position s = (false, s)) ∧
    (position ≠ s.bottom_right →
      set_bottom_right_from_mouse position s =
        (true, {s with bottom_right := position,
                       bottom_right_revision := s.bottom_right_revision + 1})) ∧
    (position = s.top_left →
      (Ev.gateAcquired ∈ (on_hotkey env 1 position s).2 ↔
        (is_capture_blocked s = false ∧ both_corners_updated s = true))) ∧
    (position = s.bottom_right →
      (Ev.gateAcquired ∈ (on_hotkey env 2 position s).2 ↔
        (is_capture_blocked s = false ∧ both_corners_updated s = true))) := by
  refine ⟨fun h => by simp [set_top_left_from_mouse, h],
    fun h => by simp [set_top_left_from_mouse, h],
    fun h => by simp [set_bottom_right_from_mouse, h],
    fun h => by simp [set_bottom_right_from_mouse, h], fun h => ?_, fun h => ?_⟩
  · have h0 : position = (clear_answer_letter_icon s).top_left := h
    have hmem := gateAcquired_mem_try_capture env (clear_answer_letter_icon s)
    simp only [on_hotkey, set_top_left_from_mouse, h0, if_pos rfl]
    simpa [is_capture_blocked, both_corners_updated, clear_answer_letter_icon]
      using hmem
  · have h0 : position = (clear_answer_letter_icon s).bottom_right := h
    have hmem := gateAcquired_mem_try_capture env (clear_answer_letter_icon s)
    simp only [on_hotkey, set_bottom_right_from_mouse, h0, if_pos rfl]
    simpa [is_capture_blocked, both_corners_updated, clear_answer_letter_icon]
      using hmem

/-- C8 counterexample: in the reachable state `stage2` (both corners hold
unconsumed updates after a failed capture attempt, gate free), a top-left
hotkey event at the corner's exact current position is a no-op update
(returns `false`, revision unchanged) and yet the event acquires the gate
and starts a capture, refuting "no capture is triggered by that event". -/
theorem C8_counterexample_noop_event_triggers_capture :
    (0, 0) = stage2.top_left ∧
    set_top_left_from_mouse (0, 0) stage2 = (false, stage2) ∧
    (set_top_left_from_mouse (0, 0) stage2).2.top_left_revision = stage2.top_left_revision ∧
    Ev.gateAcquired ∈ (on_hotkey env_pipeline_fail 1 (0, 0) stage2).2 := by
  decide

/-- C8 witness: the amended theorem applied at the same reachable state, for
a no-op update, a position-changing update, and the trigger condition. -/
theorem C8_witness :
    set_top_left_from_mouse (0, 0) stage2 = (false, stage2) ∧
    (set_top_left_from_mouse (7, 8) stage2).1 = true ∧
    (set_top_left_from_mouse (7, 8) stage2).2.top_left_revision =
      stage2.top_left_revision + 1 ∧
    Ev.gateAcquired ∈ (on_hotkey env_pipeline_fail 1 (0, 0) stage2).2 := by
  have h := C8_noop_update_and_trigger_condition env_pipeline_fail (0, 0) stage2
  have h2 := (C8_noop_update_and_trigger_condition env_pipeline_fail (7, 8) stage2).2.1
    (by decide)
  exact ⟨h.1 (by decide), by rw [h2], by rw [h2],
    (h.2.2.2.2.1 (by decide)).mpr ⟨rfl, rfl⟩⟩

/-! ### Claim C10 -/

/-- C10: every hotkey event first sets both cached answer fields to `None`
(the cleared state has no letter and no free-response text, the result of
the event does not depend on the previously cached answers at all, and the
clearing event precedes the position comparison in the trace), including
no-op events — the position is compared only afterwards. -/
theorem C10_hotkey_clears_answers_before_comparison (env : CaptureEnv) (hotkey_id : Nat)
    (position : Int × Int) (s : AppState) :
    (clear_answer_letter_icon s).answer_letter_icon = none ∧
    (clear_answer_letter_icon s).free_response_answer_text = none ∧
    on_hotkey env hotkey_id position s =
      on_hotkey env hotkey_id position (clear_answer_letter_icon s) ∧
    (on_hotkey env hotkey_id position s).2.get? 0 = some Ev.answerCleared ∧
    (hotkey_id = 1 ∨ hotkey_id = 2 →
      ∃ changed, (on_hotkey env hotkey_id position s).2.get? 1 =
        some (Ev.positionCompared hotkey_id changed)) := by
  refine ⟨rfl, rfl, rfl, ?_, ?_⟩
  · by_cases h1 : hotkey_id = 1 <;> by_cases h2 : hotkey_id = 2 <;>
      simp [on_hotkey, h1, h2]
  · rintro (h | h) <;> subst h
    · exact ⟨(set_top_left_from_mouse position (clear_answer_letter_icon s)).1,
        by simp [on_hotkey]⟩
    · exact ⟨(set_bottom_right_from_mouse position (clear_answer_letter_icon s)).1,
        by simp [on_hotkey]⟩

/-- C10 witness: the clearing-then-comparison order on a concrete event. -/
theorem C10_witness :
    ∃ changed, (on_hotkey env_capture_fail 1 (3, 3) app_start).2.get? 1 =
      some (Ev.positionCompared 1 changed) :=
  (C10_hotkey_clears_answers_before_comparison env_capture_fail 1 (3, 3) app_start).2.2.2.2
    (Or.inl rfl)
